import Mathlib

/-!
Verification development for `great_expectations/datasource/fluent/sources.py`:
a runtime-extensible type registry with synthesized factory surfaces.

The Python module is shallowly embedded as pure Lean functions over explicit
state.  Python class objects (`Datasource` subclasses, `DataAsset` subclasses
and factory functions) are identified by `Nat` ids; mutable process-wide state
(`_SourceFactories.type_lookup`, `_SourceFactories.__source_factories`, the
`__name__` slots of factory function objects) and mutable per-class state
(`ds_type._type_lookup`, `ds_type.__dict__`) are threaded explicitly.
Python exceptions become an error type; `raise` becomes `Except.error`.
-/

set_option autoImplicit false

namespace Sources

/-- The single-quote character used inside Python f-string renderings. -/
def sq : String := String.singleton (Char.ofNat 39)

/-- Association-list lookup, mirroring Python `dict.get` / `dict[...]`
(first binding for the key wins; our update keeps keys unique). -/
def assocFind {κ α : Type} [DecidableEq κ] : List (κ × α) → κ → Option α
  | [], _ => none
  | (k2, v) :: rest, k => if k2 = k then some v else assocFind rest k

/-- Association-list update-or-append, mirroring Python `dict[k] = v` /
`setattr` (replacement keeps the key at its original position; a new key is
appended, matching insertion-ordered dicts). -/
def assocSet {κ α : Type} [DecidableEq κ] : List (κ × α) → κ → α → List (κ × α)
  | [], k, v => [(k, v)]
  | (k2, v2) :: rest, k, v =>
    if k2 = k then (k, v) :: rest else (k2, v2) :: assocSet rest k v

/-- Base Python exceptions raised by code this module calls into.
`duplicateTagError` / `duplicateTypeError` are the bidirectional-map errors;
`type_lookup.py` is not among the sources under verification, so those two
are modelled from the spec (section 7). -/
inductive PyCause where
  | keyError (key : String)
  | typeError (msg : String)
  | attributeError (msg : String)
  | valueError (msg : String)
  | duplicateTagError (tag : String)
  | duplicateTypeError (ty : Nat)
deriving DecidableEq, Repr

/-- An exception escaping a registration call: either the module-defined
`TypeRegistrationError(TypeError)` (sources.py line 48), carrying the
`from` cause when raised with one, or an uncaught base exception. -/
inductive PyError where
  | typeRegistrationError (msg : String) (cause : Option PyCause)
  | exc (e : PyCause)
deriving DecidableEq, Repr

/-- Is the error an instance of `TypeRegistrationError`? -/
def PyError.isTypeRegistrationError : PyError → Bool
  | .typeRegistrationError _ _ => true
  | _ => false

/-- A pydantic `ModelField` as far as this module reads it: its `default`
and its `type_` annotation (the annotation is carried opaquely as a string;
the module never inspects it beyond returning it). Field default values are
either a string tag or Python `None` (`Option.none`). -/
structure ModelField where
  default : Option String
  type_ : String
deriving DecidableEq, Repr

/-- The `_FieldDetails` named tuple (sources.py lines 52-54). -/
structure _FieldDetails where
  default_value : Option String
  type_annotation : String
deriving DecidableEq, Repr

/-- Function `_get_field_details(model, field_name)` (sources.py lines 57-64):
`model.__fields__[field_name]` raises `KeyError` when the field is absent;
otherwise the default value and type annotation are returned. -/
def _get_field_details (fields : List (String × ModelField)) (field_name : String) :
    Except PyCause _FieldDetails :=
  match assocFind fields field_name with
  | none => .error (.keyError field_name)
  | some f => .ok ⟨f.default, f.type_⟩

/-- Python truthiness test `not x` for an optional string
(`if not ds_type_name:` treats both `None` and `""` as falsy). -/
def pyFalsy : Option String → Bool
  | none => true
  | some s => s = ""

/-- Python `t.__name__.startswith("_")` (the private-type naming
convention check of sources.py line 169). -/
def startsWithUnderscore (s : String) : Bool :=
  match s.data with
  | [] => false
  | c :: _ => c = Char.ofNat 95

/-- Equality of `Except` results is decidable componentwise. -/
instance exceptDecEq {ε α : Type} [DecidableEq ε] [DecidableEq α] :
    DecidableEq (Except ε α) := fun x y =>
  match x, y with
  | .ok a, .ok b =>
    if h : a = b then .isTrue (by rw [h])
    else .isFalse (fun hc => h (Except.ok.inj hc))
  | .ok _, .error _ => .isFalse (fun hc => Except.noConfusion hc)
  | .error _, .ok _ => .isFalse (fun hc => Except.noConfusion hc)
  | .error a, .error b =>
    if h : a = b then .isTrue (by rw [h])
    else .isFalse (fun hc => h (Except.error.inj hc))

/-- Modelled from the spec: the `TypeLookup` bidirectional map of
`type_lookup.py`, which is not among the sources under verification.
Spec section 4.1: a bijective type-to-tag map; `set` fails with
`DuplicateTagError` when the tag already maps to a different type and with
`DuplicateTypeError` when the type already maps to a different tag;
`names()` returns tags in insertion order.  Types are identified by ids. -/
structure Lookup where
  entries : List (Nat × String)
deriving DecidableEq, Repr

/-- Tag-to-type direction of the map. -/
def Lookup.getType (l : Lookup) (tag : String) : Option Nat :=
  (l.entries.find? (fun e => e.2 = tag)).map (·.1)

/-- Type-to-tag direction of the map. -/
def Lookup.getTag (l : Lookup) (ty : Nat) : Option String :=
  (l.entries.find? (fun e => e.1 = ty)).map (·.2)

/-- Modelled from the spec: `set(type, tag)` on the bidirectional map
(spec section 4.1).  Mapping an existing tag to a different type or an
existing type to a different tag breaks the bijection and fails; recording
an already-present identical pair leaves the map unchanged. -/
def Lookup.set (l : Lookup) (ty : Nat) (tag : String) : Except PyCause Lookup :=
  match l.getType tag with
  | some ty2 => if ty2 = ty then .ok l else .error (.duplicateTagError tag)
  | none =>
    match l.getTag ty with
    | some _ => .error (.duplicateTypeError ty)
    | none => .ok ⟨l.entries ++ [(ty, tag)]⟩

/-- Method `names()`: all registered tags in insertion order. -/
def Lookup.names (l : Lookup) : List String := l.entries.map (·.2)

/-- A method object bound in a provider class `__dict__`: either a
user-defined function object (identified by id) or one of the two
generated factory methods of `_bind_asset_factory_method_if_not_present`. -/
inductive Method where
  | user (id : Nat)
  | genAdd (asset_type_name : String)
  | genRead (asset_type_name : String)
deriving DecidableEq, Repr

/-- A `DataAsset` subclass: its `__name__` and its pydantic `__fields__`. -/
structure AssetType where
  id : Nat
  name : String
  fields : List (String × ModelField)
deriving DecidableEq, Repr

/-- A `Datasource` subclass: its `__name__`, its pydantic `__fields__`
(where the declared `type` tag lives) and its declared `asset_types`. -/
structure DsType where
  id : Nat
  name : String
  fields : List (String × ModelField)
  asset_types : List AssetType
deriving DecidableEq, Repr

/-- Mutable state carried by a provider class object: its private
`_type_lookup` asset map and its `__dict__` (method bindings). -/
structure ClassState where
  asset_lookup : Lookup
  dict : List (String × Method)
deriving DecidableEq, Repr

/-- Process-wide mutable state: `_SourceFactories.type_lookup` (global
provider map), `_SourceFactories.__source_factories` (method name to factory
function object, insertion-ordered) and the `__name__` slots of factory
function objects (`fn_names`, keyed by function object id). -/
structure RegState where
  type_lookup : Lookup
  source_factories : List (String × Nat)
  fn_names : List (Nat × String)
deriving DecidableEq, Repr

/-- Result of a registration call: the raised exception (if any) and the
process-wide and class state after the call, rollback already applied. -/
structure RegResult where
  err : Option PyError
  st : RegState
  cst : ClassState
deriving DecidableEq, Repr

/-- Message of sources.py line 113:
"`{ds_type.__name__}` is missing a `type` attribute with an assigned string value". -/
def missingTypeMsg (dsName : String) : String :=
  "`" ++ dsName ++ "` is missing a `type` attribute with an assigned string value"

/-- Message of sources.py line 178:
"{t.__name__} `type` field must be assigned and cannot be `None`". -/
def assetTypeNoneMsg (tName : String) : String :=
  tName ++ " `type` field must be assigned and cannot be `None`"

/-- Message of sources.py line 186: "No `type` field found for
`{ds_type.__name__}.asset_types` -> `{t.__name__}` unable to register asset type". -/
def noTypeFieldMsg (dsName tName : String) : String :=
  "No `type` field found for `" ++ dsName ++ ".asset_types` -> `" ++ tName ++
    "` unable to register asset type"

/-- Message of sources.py line 148, a single-quoted tag followed by
" - `sources.{method_name}()` factory already exists". -/
def factoryExistsMsg (ds_type_name method_name : String) : String :=
  sq ++ ds_type_name ++ sq ++ " - `sources." ++ method_name ++ "()` factory already exists"

/-- Method `_bind_asset_factory_method_if_not_present` (sources.py lines 191-241),
restricted to its effect on `ds_type.__dict__`.  The guard checks only
whether `add_<asset_type_name>_asset` is in the class `__dict__`; when it is
absent, BOTH the generated `_add_asset_factory` and the generated
`_read_asset_factory` are bound via `setattr` (the `read_<asset_type_name>`
binding is installed unconditionally in that branch, replacing any existing
one).  The `_merge_signatures` / `public_api` decorations are signature and
documentation cosmetics with no effect on the bindings modelled here. -/
def _bind_asset_factory_method_if_not_present
    (dict : List (String × Method)) (asset_type_name : String) :
    List (String × Method) :=
  let add_asset_factory_method_name := "add_" ++ asset_type_name ++ "_asset"
  match assocFind dict add_asset_factory_method_name with
  | some _ => dict
  | none =>
    let d1 := assocSet dict add_asset_factory_method_name (.genAdd asset_type_name)
    assocSet d1 ("read_" ++ asset_type_name) (.genRead asset_type_name)

/-- Which exceptions the `except (AttributeError, KeyError, TypeError)`
clause of `_register_assets` (sources.py line 184) catches.  The
duplicate-map errors are included as caught: spec section 7 states they
"are caught and re-wrapped as TypeRegistrationError at the registry
boundary" (modelled from the spec, `type_lookup.py` being absent). -/
def caughtByAssetExcept : PyCause → Bool
  | .attributeError _ => true
  | .keyError _ => true
  | .typeError _ => true
  | .duplicateTagError _ => true
  | .duplicateTypeError _ => true
  | .valueError _ => false

/-- Body of the `try` block of `_register_assets` (sources.py lines 174-183)
for one asset type: read the asset `type` field (KeyError when absent),
raise TypeError when its default is `None`, then record the asset in the
staged per-provider lookup.  Returns the asset type name and updated lookup. -/
def assetTryBody (t : AssetType) (al : Lookup) : Except PyCause (String × Lookup) :=
  match _get_field_details t.fields "type" with
  | .error e => .error e
  | .ok details =>
    match details.default_value with
    | none => .error (.typeError (assetTypeNoneMsg t.name))
    | some asset_type_name =>
      match al.set t.id asset_type_name with
      | .error e => .error e
      | .ok al2 => .ok (asset_type_name, al2)

/-- The `try`/`except` of `_register_assets` for one asset type: caught
base exceptions are re-raised as `TypeRegistrationError` with the original
exception as cause (sources.py lines 184-187). -/
def assetRegisterOne (dsName : String) (t : AssetType) (al : Lookup) :
    Except PyError (String × Lookup) :=
  match assetTryBody t al with
  | .ok r => .ok r
  | .error e =>
    if caughtByAssetExcept e then
      .error (.typeRegistrationError (noTypeFieldMsg dsName t.name) (some e))
    else
      .error (.exc e)

/-- Method `_register_assets` (sources.py lines 159-189): iterate the declared
asset types in order, skipping private ones (leading underscore in the class
name); for each, run the guarded tag read and staged lookup insertion, then
bind the factory methods onto the class `__dict__`.  The `__dict__`
mutations are ordinary `setattr` calls and are NOT transactional: on a
failure partway, bindings made for earlier asset types persist, so the
(possibly mutated) `__dict__` is returned in the error case as well.
An empty `asset_types` list only logs a warning. -/
def _register_assets (ds : DsType) (al : Lookup) (dict : List (String × Method)) :
    Except PyError Lookup × List (String × Method) :=
  go ds.asset_types al dict
where
  go : List AssetType → Lookup → List (String × Method) →
      Except PyError Lookup × List (String × Method)
  | [], al, dict => (.ok al, dict)
  | t :: rest, al, dict =>
    if startsWithUnderscore t.name then
      go rest al dict
    else
      match assetRegisterOne ds.name t al with
      | .error e => (.error e, dict)
      | .ok (asset_type_name, al2) =>
        go rest al2 (_bind_asset_factory_method_if_not_present dict asset_type_name)

/-- Method `_register_datasource_and_factory_method` (sources.py lines 128-157):
derive `method_name = "add_" + ds_type_name`; fail with
`TypeRegistrationError` when `__source_factories` already holds that name;
otherwise record the provider in the staged global lookup, rename the
factory function object supplied by the caller to the method name (a
mutation of the object itself, visible through `fn_names`), apply the cosmetic
`public_api` decoration, and store the function in `__source_factories`.
Errors leave the process-wide state to be rolled back by the caller. -/
def _register_datasource_and_factory_method
    (st : RegState) (ds : DsType) (factory_fn : Nat) (ds_type_name : String) :
    Except PyError RegState :=
  let method_name := "add_" ++ ds_type_name
  match assocFind st.source_factories method_name with
  | some _ =>
    .error (.typeRegistrationError (factoryExistsMsg ds_type_name method_name) none)
  | none =>
    match st.type_lookup.set ds.id ds_type_name with
    | .error e => .error (.exc e)
    | .ok tl2 =>
      .ok { type_lookup := tl2,
            source_factories := st.source_factories ++ [(method_name, factory_fn)],
            fn_names := assocSet st.fn_names factory_fn method_name }

/-- Method `register_types_and_ds_factory` (sources.py lines 84-126): read
the declared `type` tag of the provider (a missing field raises `KeyError`, a falsy
default raises `TypeRegistrationError`); then, inside a transaction over the
global provider lookup and the per-provider asset lookup, register the asset
types and the datasource factory.  On any exception inside the transaction
both lookups roll back to their pre-call contents — but the `setattr`
bindings already made on the provider class `__dict__` persist, as does any
factory-function rename (none happens on the error paths, since the rename
follows the last fallible statement). -/
def register_types_and_ds_factory
    (st : RegState) (cst : ClassState) (ds : DsType) (factory_fn : Nat) : RegResult :=
  match _get_field_details ds.fields "type" with
  | .error e => ⟨some (.exc e), st, cst⟩
  | .ok details =>
    let ds_type_name := details.default_value
    if pyFalsy ds_type_name then
      ⟨some (.typeRegistrationError (missingTypeMsg ds.name) none), st, cst⟩
    else
      match _register_assets ds cst.asset_lookup cst.dict with
      | (.error e, dict2) => ⟨some e, st, { cst with dict := dict2 }⟩
      | (.ok al2, dict2) =>
        match _register_datasource_and_factory_method st ds factory_fn
            (ds_type_name.getD "") with
        | .error e => ⟨some e, st, { cst with dict := dict2 }⟩
        | .ok st2 => ⟨none, st2, { asset_lookup := al2, dict := dict2 }⟩

/-- Property `factories` (sources.py lines 269-271):
`list(self.__source_factories.keys())`, i.e. registration order. -/
def factories (st : RegState) : List String := st.source_factories.map Prod.fst

/-- Python repr of a list of strings, as an f-string interpolates
`self.factories`: `[` + comma-separated single-quoted names + `]`. -/
def pyListRepr (names : List String) : String :=
  "[" ++ String.intercalate ", " (names.map (fun s => sq ++ s ++ sq)) ++ "]"

/-- Message of sources.py line 296:
"No factory {attr_name} in {self.factories}". -/
def noFactoryMsg (attr_name : String) (known : List String) : String :=
  "No factory " ++ attr_name ++ " in " ++ pyListRepr known

/-- Outcome of `__getattr__` on `_SourceFactories`: either the bound wrapper
closing over the stored factory function, or an `AttributeError`.  The error
carries both the rendered message and the list of factory names the message
enumerates (the message is exactly `noFactoryMsg` applied to them). -/
inductive GetattrResult where
  | wrapped (factory_fn : Nat)
  | attrError (msg : String) (enumerated : List String)
deriving DecidableEq, Repr

/-- Did `__getattr__` raise `AttributeError`? -/
def GetattrResult.isAttrError : GetattrResult → Bool
  | .attrError _ _ => true
  | .wrapped _ => false

/-- Method `__getattr__` (sources.py lines 273-296): look the name up in
`__source_factories`; on `KeyError`, raise `AttributeError` whose message
interpolates the attribute name and the full `self.factories` list. -/
def facade_getattr (st : RegState) (attr_name : String) : GetattrResult :=
  match assocFind st.source_factories attr_name with
  | some fn => .wrapped fn
  | none => .attrError (noFactoryMsg attr_name (factories st)) (factories st)

/-- Method `__dir__` (sources.py lines 298-300): `[*self.factories, *super().__dir__()]`;
`builtins` stands for the superclass `__dir__` contribution. -/
def facade_dir (st : RegState) (builtins : List String) : List String :=
  factories st ++ builtins

/-- A freshly constructed datasource instance, as far as the `wrapped`
closure of `__getattr__` observes it: how the instance reacts to the
attribute assignment `datasource._data_context = self._data_context`
(`none` = the assignment succeeds; `some e` = it raises `e`). -/
structure DsInstance where
  set_data_context_raises : Option PyCause
deriving DecidableEq, Repr

/-- What the `wrapped` closure did before returning. -/
structure WrapOutcome where
  /-- Whether `datasource._data_context = ...` took effect. -/
  ctx_set : Bool
  /-- The exception the `except ValueError` clause swallowed (and logged), if any. -/
  swallowed : Option PyCause
  /-- Whether `self._data_context._attach_datasource_to_context(datasource)` was called. -/
  attached : Bool
  /-- The datasource instance was returned to the caller. -/
  returned : Bool
deriving DecidableEq, Repr

/-- The `wrapped` closure of `__getattr__` (sources.py lines 277-289), from
the point where `ds_constructor` has produced `datasource`: try the
`_data_context` assignment, catching ONLY `ValueError` (logged and passed);
then attach the datasource to the context and return it.  Any other
exception from the assignment propagates out of the wrapper. -/
def wrapped_call (datasource : DsInstance) : Except PyCause WrapOutcome :=
  match datasource.set_data_context_raises with
  | none => .ok ⟨true, none, true, true⟩
  | some (.valueError m) => .ok ⟨false, some (.valueError m), true, true⟩
  | some e => .error e

/-- Constant `DEFAULT_PANDAS_DATA_ASSET_NAME` (sources.py line 41). -/
def DEFAULT_PANDAS_DATA_ASSET_NAME : String := "#ephemeral_pandas_asset"

/-- Python `x or y` for an optional string `x` (falsy = `None` or `""`). -/
def pyOrStr (x : Option String) (y : String) : String :=
  match x with
  | none => y
  | some s => if s = "" then y else s

/-- The asset name the generated `_read_asset_factory` (sources.py lines
223-230) passes to the asset constructor:
`name = asset_name or DEFAULT_PANDAS_DATA_ASSET_NAME`, where `asset_name`
is an optional parameter defaulting to `None`. -/
def _read_asset_factory_effective_name (asset_name : Option String) : String :=
  pyOrStr asset_name DEFAULT_PANDAS_DATA_ASSET_NAME

/-- One registration request: the per-class state of the provider class,
the provider class itself and the factory function object. -/
structure RegRequest where
  cst : ClassState
  ds : DsType
  factory_fn : Nat
deriving DecidableEq, Repr

/-- Run a sequence of registrations, requiring every one to succeed
(`none` when any call raises). -/
def registerSeq : RegState → List RegRequest → Option RegState
  | st, [] => some st
  | st, r :: rest =>
    let res := register_types_and_ds_factory st r.cst r.ds r.factory_fn
    match res.err with
    | some _ => none
    | none => registerSeq res.st rest

/-- The declared `type` tag of a provider as `register_types_and_ds_factory`
reads it (empty string when unreadable; a successful registration implies it
is a nonempty string). -/
def declaredTypeName (ds : DsType) : String :=
  match _get_field_details ds.fields "type" with
  | .ok details => details.default_value.getD ""
  | .error _ => ""

/-- The empty process-wide state: no registered providers, no factories,
an empty function-object name heap. -/
def emptyRegState : RegState := ⟨⟨[]⟩, [], []⟩

/-- The declared `type` default of a provider as the registry reads it
(spec-side helper for stating theorems). -/
def declaredTypeDefault (ds : DsType) : Except PyCause (Option String) :=
  (_get_field_details ds.fields "type").map (·.default_value)

/-- Fixture: a public `DataAsset` subclass with declared tag `"file"`. -/
def assetFile : AssetType := ⟨20, "FileAsset", [("type", ⟨some "file", "str"⟩)]⟩

/-- Fixture: a `DataAsset` subclass whose `type` field default is `None`. -/
def assetBad : AssetType := ⟨21, "BadAsset", [("type", ⟨none, "str"⟩)]⟩

/-- Fixture: a `Datasource` subclass with tag `"csv"` and one good asset. -/
def dsCsv : DsType := ⟨10, "CsvDatasource", [("type", ⟨some "csv", "str"⟩)], [assetFile]⟩

/-- Fixture: a second, distinct `Datasource` subclass also declaring tag `"csv"`. -/
def dsCsv2 : DsType :=
  ⟨11, "OtherCsvDatasource", [("type", ⟨some "csv", "str"⟩)], [assetFile]⟩

/-- Fixture: a `Datasource` subclass with tag `"csv"` whose second declared
asset has a `None` tag, so registration fails after the first asset was
processed. -/
def dsBadAsset : DsType :=
  ⟨12, "BadAssetDatasource", [("type", ⟨some "csv", "str"⟩)], [assetFile, assetBad]⟩

/-- Fixture: a `Datasource` subclass with no `type` field in `__fields__`. -/
def dsNoType : DsType := ⟨13, "NoTypeDs", [], []⟩

/-- Fixture: a `Datasource` subclass whose declared `type` default is `""`. -/
def dsEmptyTag : DsType := ⟨14, "EmptyTagDs", [("type", ⟨some "", "str"⟩)], []⟩

/-- Fixture: a pristine class state (empty asset lookup, empty `__dict__`). -/
def freshClass : ClassState := ⟨⟨[]⟩, []⟩

/-- Fixture: a class state whose `__dict__` explicitly defines `read_file`
as a user-written function object, but not `add_file_asset`. -/
def classWithUserRead : ClassState := ⟨⟨[]⟩, [("read_file", .user 5)]⟩

/-- Fixture: a class state whose `__dict__` explicitly defines
`add_file_asset` as a user-written function object. -/
def classWithUserAdd : ClassState := ⟨⟨[]⟩, [("add_file_asset", .user 6)]⟩

/-- Fixture: the process-wide state after successfully registering `dsCsv`
with factory function object `1` from the empty state. -/
def stAfterCsv : RegResult := register_types_and_ds_factory emptyRegState freshClass dsCsv 1

/-- Fixture: the result of then attempting to register `dsCsv2` (same tag
`"csv"`) with factory function object `2`. -/
def collisionResult : RegResult :=
  register_types_and_ds_factory stAfterCsv.st freshClass dsCsv2 2

/-- Fixture: the result of registering `dsBadAsset` from the empty state
(fails on the `None` tag of the second asset). -/
def badAssetResult : RegResult :=
  register_types_and_ds_factory emptyRegState freshClass dsBadAsset 3

/-- Fixture: a `Datasource` subclass with tag `"alpha"` and no assets. -/
def dsAlpha : DsType := ⟨30, "AlphaDs", [("type", ⟨some "alpha", "str"⟩)], []⟩

/-- Fixture: a `Datasource` subclass with tag `"beta"` and no assets. -/
def dsBeta : DsType := ⟨31, "BetaDs", [("type", ⟨some "beta", "str"⟩)], []⟩

/-- Fixture: register `dsAlpha` then `dsBeta`, in that order. -/
def regsAlphaBeta : List RegRequest := [⟨freshClass, dsAlpha, 7⟩, ⟨freshClass, dsBeta, 8⟩]

/-- Fixture: the process-wide state after registering `regsAlphaBeta`. -/
def stAlphaBeta : RegState :=
  ⟨⟨[(30, "alpha"), (31, "beta")]⟩,
   [("add_alpha", 7), ("add_beta", 8)],
   [(7, "add_alpha"), (8, "add_beta")]⟩

/-- Fixture: a stand-in for the built-in members contributed by
`super().__dir__()` on the facade. -/
def facadeBuiltins : List String :=
  ["factories", "pandas_default", "type_lookup"]

/-- Appending a fresh key at the end of an association list makes it findable. -/
theorem assocFind_append_right {κ α : Type} [DecidableEq κ]
    (l : List (κ × α)) (k : κ) (v : α) (h : assocFind l k = none) :
    assocFind (l ++ [(k, v)]) k = some v := by
  induction l with
  | nil => simp [assocFind]
  | cons p rest ih =>
    obtain ⟨k2, v2⟩ := p
    by_cases hk : k2 = k
    · simp [assocFind, hk] at h
    · simp only [assocFind, hk, if_false, List.cons_append] at h ⊢
      exact ih h

/-- Writing a binding with `assocSet` makes it findable. -/
theorem assocFind_assocSet_self {κ α : Type} [DecidableEq κ]
    (l : List (κ × α)) (k : κ) (v : α) :
    assocFind (assocSet l k v) k = some v := by
  induction l with
  | nil => simp [assocSet, assocFind]
  | cons p rest ih =>
    obtain ⟨k2, v2⟩ := p
    by_cases hk : k2 = k
    · simp [assocSet, assocFind, hk]
    · simp [assocSet, assocFind, hk, ih]

/-- A key outside the key list of an association list is not found. -/
theorem assocFind_eq_none_of_not_mem {κ α : Type} [DecidableEq κ]
    (l : List (κ × α)) (k : κ) (h : k ∉ l.map Prod.fst) :
    assocFind l k = none := by
  induction l with
  | nil => rfl
  | cons p rest ih =>
    obtain ⟨k2, v2⟩ := p
    simp only [List.map_cons, List.mem_cons] at h
    push_neg at h
    have hk : k2 ≠ k := fun he => h.1 he.symm
    simp [assocFind, hk, ih h.2]

/-- Every exception the body of the per-asset `try` block can raise is one
the `except (AttributeError, KeyError, TypeError)` clause catches. -/
theorem assetTryBody_error_caught (t : AssetType) (al : Lookup) (e : PyCause)
    (h : assetTryBody t al = .error e) : caughtByAssetExcept e = true := by
  unfold assetTryBody at h
  cases hf : _get_field_details t.fields "type" with
  | error e0 =>
    simp only [hf, Except.error.injEq] at h
    subst h
    unfold _get_field_details at hf
    cases hfind : assocFind t.fields "type" <;> simp only [hfind] at hf
    · simp only [Except.error.injEq] at hf
      subst hf
      rfl
    · cases hf
  | ok details =>
    simp only [hf] at h
    cases hd : details.default_value with
    | none =>
      simp only [hd, Except.error.injEq] at h
      subst h
      rfl
    | some atn =>
      simp only [hd] at h
      cases hs : al.set t.id atn with
      | error e1 =>
        simp only [hs, Except.error.injEq] at h
        subst h
        unfold Lookup.set at hs
        cases hg : al.getType atn <;> simp only [hg] at hs
        · cases hg2 : al.getTag t.id <;> simp only [hg2] at hs
          · cases hs
          · simp only [Except.error.injEq] at hs
            subst hs
            rfl
        · split at hs
          · cases hs
          · simp only [Except.error.injEq] at hs
            subst hs
            rfl
      | ok al2 =>
        simp only [hs] at h
        cases h

/-- Any exception escaping the per-asset registration step is a
`TypeRegistrationError` (the wrap of sources.py lines 184-187). -/
theorem assetRegisterOne_error_tre (dsName : String) (t : AssetType) (al : Lookup)
    (e : PyError) (h : assetRegisterOne dsName t al = .error e) :
    e.isTypeRegistrationError = true := by
  unfold assetRegisterOne at h
  cases hb : assetTryBody t al with
  | ok r => simp only [hb] at h; cases h
  | error e0 =>
    simp only [hb, assetTryBody_error_caught t al e0 hb, if_true, Except.error.injEq] at h
    subst h
    rfl

/-- Any exception escaping `_register_assets` is a `TypeRegistrationError`. -/
theorem register_assets_error_tre (ds : DsType) (al : Lookup)
    (dict : List (String × Method)) (e : PyError) (d2 : List (String × Method))
    (h : _register_assets ds al dict = (.error e, d2)) :
    e.isTypeRegistrationError = true := by
  unfold _register_assets at h
  exact go_error ds.asset_types al dict h
where
  go_error : ∀ (l : List AssetType) (al : Lookup) (dict : List (String × Method)),
      _register_assets.go ds l al dict = (.error e, d2) → e.isTypeRegistrationError = true
  | [], al, dict, h => by simp [_register_assets.go] at h
  | t :: rest, al, dict, h => by
    unfold _register_assets.go at h
    by_cases hp : startsWithUnderscore t.name = true
    · rw [if_pos hp] at h
      exact go_error rest al dict h
    · rw [if_neg hp] at h
      cases ho : assetRegisterOne ds.name t al with
      | error e1 =>
        rw [ho] at h
        dsimp only at h
        injection h with h1 h2
        injection h1 with h1
        subst h1
        exact assetRegisterOne_error_tre ds.name t al e1 ho
      | ok r =>
        rw [ho] at h
        dsimp only at h
        exact go_error rest r.2 (_bind_asset_factory_method_if_not_present dict r.1) h

/-- Inversion of a successful `_register_datasource_and_factory_method`:
the derived name was fresh, the factory table gained exactly that binding at
the end, and the factory function object was renamed to the derived name. -/
theorem rdfm_ok (st : RegState) (ds : DsType) (factory_fn : Nat)
    (ds_type_name : String) (st2 : RegState)
    (h : _register_datasource_and_factory_method st ds factory_fn ds_type_name = .ok st2) :
    assocFind st.source_factories ("add_" ++ ds_type_name) = none ∧
    st2.source_factories = st.source_factories ++ [("add_" ++ ds_type_name, factory_fn)] ∧
    st2.fn_names = assocSet st.fn_names factory_fn ("add_" ++ ds_type_name) := by
  unfold _register_datasource_and_factory_method at h
  cases hfind : assocFind st.source_factories ("add_" ++ ds_type_name) with
  | some f => simp only [hfind] at h; cases h
  | none =>
    simp only [hfind] at h
    cases hs : st.type_lookup.set ds.id ds_type_name with
    | error e => simp only [hs] at h; cases h
    | ok tl2 =>
      simp only [hs, Except.ok.injEq] at h
      subst h
      exact ⟨rfl, rfl, rfl⟩

/-- A derived-name collision makes `_register_datasource_and_factory_method`
raise `TypeRegistrationError` without touching any state. -/
theorem rdfm_collision (st : RegState) (ds : DsType) (factory_fn : Nat)
    (ds_type_name : String) (f : Nat)
    (h : assocFind st.source_factories ("add_" ++ ds_type_name) = some f) :
    _register_datasource_and_factory_method st ds factory_fn ds_type_name =
      .error (.typeRegistrationError
        (factoryExistsMsg ds_type_name ("add_" ++ ds_type_name)) none) := by
  unfold _register_datasource_and_factory_method
  simp only [h]

/-- Transactional rollback: whenever `register_types_and_ds_factory` raises,
the whole process-wide state (both the global provider lookup, the factory
table and the function-object names) and the per-provider asset lookup are
exactly as before the call.  (The provider class `__dict__` is NOT covered:
its `setattr` mutations are not transactional.) -/
theorem register_err_rollback (st : RegState) (cst : ClassState) (ds : DsType)
    (factory_fn : Nat)
    (h : (register_types_and_ds_factory st cst ds factory_fn).err.isSome = true) :
    (register_types_and_ds_factory st cst ds factory_fn).st = st ∧
    (register_types_and_ds_factory st cst ds factory_fn).cst.asset_lookup =
      cst.asset_lookup := by
  unfold register_types_and_ds_factory at h ⊢
  cases hf : _get_field_details ds.fields "type" with
  | error e =>
    exact ⟨rfl, rfl⟩
  | ok details =>
    rw [hf] at h
    dsimp only at h ⊢
    by_cases hp : pyFalsy details.default_value = true
    · rw [if_pos hp]
      exact ⟨rfl, rfl⟩
    · rw [if_neg hp] at h ⊢
      cases ha : _register_assets ds cst.asset_lookup cst.dict with
      | mk res dict2 =>
        cases res with
        | error e =>
          exact ⟨rfl, rfl⟩
        | ok al2 =>
          rw [ha] at h
          dsimp only at h ⊢
          cases hr : _register_datasource_and_factory_method st ds factory_fn
              (details.default_value.getD "") with
          | error e =>
            exact ⟨rfl, rfl⟩
          | ok st2 =>
            rw [hr] at h
            simp at h

/-- Shape of a successful registration: the declared tag is a nonempty
string, the derived name was fresh before the call, the factory table gained
exactly the new binding at its end, and the factory function object was
renamed to the derived name. -/
theorem register_ok_shape (st : RegState) (cst : ClassState) (ds : DsType)
    (factory_fn : Nat)
    (h : (register_types_and_ds_factory st cst ds factory_fn).err = none) :
    declaredTypeName ds ≠ "" ∧
    declaredTypeDefault ds = .ok (some (declaredTypeName ds)) ∧
    assocFind st.source_factories ("add_" ++ declaredTypeName ds) = none ∧
    (register_types_and_ds_factory st cst ds factory_fn).st.source_factories =
      st.source_factories ++ [("add_" ++ declaredTypeName ds, factory_fn)] ∧
    (register_types_and_ds_factory st cst ds factory_fn).st.fn_names =
      assocSet st.fn_names factory_fn ("add_" ++ declaredTypeName ds) := by
  unfold register_types_and_ds_factory at h ⊢
  cases hf : _get_field_details ds.fields "type" with
  | error e =>
    rw [hf] at h
    simp at h
  | ok details =>
    rw [hf] at h
    dsimp only at h ⊢
    by_cases hp : pyFalsy details.default_value = true
    · rw [if_pos hp] at h
      simp at h
    · rw [if_neg hp] at h ⊢
      cases hd : details.default_value with
      | none => rw [hd] at hp; exact absurd rfl hp
      | some s =>
        rw [hd] at h hp
        simp only [Option.getD_some] at h ⊢
        have hs : s ≠ "" := by
          intro he
          rw [he] at hp
          exact hp rfl
        have hdn : declaredTypeName ds = s := by
          unfold declaredTypeName
          rw [hf]
          dsimp only
          rw [hd]
          rfl
        have hdd : declaredTypeDefault ds = .ok (some s) := by
          unfold declaredTypeDefault
          rw [hf]
          dsimp only [Except.map]
          rw [hd]
        rw [hdn, hdd]
        cases ha : _register_assets ds cst.asset_lookup cst.dict with
        | mk res dict2 =>
          cases res with
          | error e =>
            rw [ha] at h
            simp at h
          | ok al2 =>
            rw [ha] at h
            dsimp only at h ⊢
            cases hr : _register_datasource_and_factory_method st ds factory_fn s with
            | error e =>
              rw [hr] at h
              simp at h
            | ok st2 =>
              have hok := rdfm_ok st ds factory_fn s st2 hr
              exact ⟨hs, rfl, hok.1, hok.2.1, hok.2.2⟩

/-- A successful registration appends exactly the derived operation name to
the factory list. -/
theorem register_ok_factories (st : RegState) (cst : ClassState) (ds : DsType)
    (factory_fn : Nat)
    (h : (register_types_and_ds_factory st cst ds factory_fn).err = none) :
    factories (register_types_and_ds_factory st cst ds factory_fn).st =
      factories st ++ ["add_" ++ declaredTypeName ds] := by
  have hok := register_ok_shape st cst ds factory_fn h
  unfold factories
  rw [hok.2.2.2.1]
  simp

/-- A successful registration sequence appends the derived operation names
in registration order. -/
theorem registerSeq_factories : ∀ (regs : List RegRequest) (st st' : RegState),
    registerSeq st regs = some st' →
    factories st' = factories st ++ regs.map (fun r => "add_" ++ declaredTypeName r.ds)
  | [], st, st', h => by
    unfold registerSeq at h
    injection h with h
    subst h
    simp
  | r :: rest, st, st', h => by
    unfold registerSeq at h
    dsimp only at h
    cases he : (register_types_and_ds_factory st r.cst r.ds r.factory_fn).err with
    | some e =>
      rw [he] at h
      cases h
    | none =>
      rw [he] at h
      have hrest := registerSeq_factories rest
        (register_types_and_ds_factory st r.cst r.ds r.factory_fn).st st' h
      rw [hrest, register_ok_factories st r.cst r.ds r.factory_fn he]
      simp

/-- C1 (amended).  If `register_types_and_ds_factory` fails partway, then
after the call the global provider tag-to-type map, the per-provider product
tag-to-type map and the process-wide factory table are exactly as before the
call (no staged entry is committed), and resolving any operation name that
was not registered before the call — in particular the name derived from the
provider, whenever it was not already taken — fails with `AttributeError`
whose message enumerates the registered factory names.  (The original
unconditional "resolution fails" of the original claim is false when the
failure is a derived-name collision: the name then still resolves to the
factory of the earlier provider; see the counterexample.) -/
theorem C1_failed_registration_rolls_back_maps (st : RegState) (cst : ClassState)
    (ds : DsType) (factory_fn : Nat)
    (h : (register_types_and_ds_factory st cst ds factory_fn).err.isSome = true) :
    (register_types_and_ds_factory st cst ds factory_fn).st.type_lookup =
      st.type_lookup ∧
    (register_types_and_ds_factory st cst ds factory_fn).cst.asset_lookup =
      cst.asset_lookup ∧
    (register_types_and_ds_factory st cst ds factory_fn).st.source_factories =
      st.source_factories ∧
    ∀ nm : String, assocFind st.source_factories nm = none →
      facade_getattr (register_types_and_ds_factory st cst ds factory_fn).st nm =
        .attrError (noFactoryMsg nm (factories st)) (factories st) := by
  have hrb := register_err_rollback st cst ds factory_fn h
  refine ⟨by rw [hrb.1], hrb.2, by rw [hrb.1], ?_⟩
  intro nm hnone
  rw [hrb.1]
  unfold facade_getattr
  rw [hnone]

/-- Witness for C1: registering `dsBadAsset` (tag `"csv"`, second product
tagged `None`) from the empty state fails; both maps and the factory table are
unchanged and `add_csv` does not resolve. -/
theorem C1_failed_registration_rolls_back_maps_witness :
    (register_types_and_ds_factory emptyRegState freshClass dsBadAsset 3).err.isSome
      = true ∧
    (register_types_and_ds_factory emptyRegState freshClass dsBadAsset 3).st.type_lookup
      = emptyRegState.type_lookup ∧
    facade_getattr
        (register_types_and_ds_factory emptyRegState freshClass dsBadAsset 3).st
        "add_csv"
      = .attrError (noFactoryMsg "add_csv" (factories emptyRegState))
          (factories emptyRegState) := by
  have h : (register_types_and_ds_factory emptyRegState freshClass dsBadAsset 3).err.isSome
      = true := by decide
  have hmain := C1_failed_registration_rolls_back_maps emptyRegState freshClass dsBadAsset 3 h
  exact ⟨h, hmain.1, hmain.2.2.2 "add_csv" (by decide)⟩

/-- Counterexample to C1 as stated: when the failure is a derived-name
collision (`dsCsv2` also declares `"csv"` after `dsCsv` was registered),
the failed call leaves `add_csv` resolvable — it resolves to the factory of
the FIRST registration, not to an `AttributeError`. -/
theorem C1_counterexample :
    collisionResult.err.isSome = true ∧
    (facade_getattr collisionResult.st "add_csv").isAttrError = false ∧
    facade_getattr collisionResult.st "add_csv" = .wrapped 1 := by decide

/-- C2.  When a provider registration succeeded and the declared tag of a
second provider derives the same operation name, the second call fails with
`TypeRegistrationError` and the factory-table entry for the derived name is
still the factory function stored by the first registration, unchanged. -/
theorem C2_second_registration_same_name_fails (st : RegState)
    (cst1 cst2 : ClassState) (ds1 ds2 : DsType) (fn1 fn2 : Nat) (s : String)
    (h1 : (register_types_and_ds_factory st cst1 ds1 fn1).err = none)
    (htag1 : declaredTypeName ds1 = s)
    (htag2 : declaredTypeDefault ds2 = .ok (some s)) :
    ((register_types_and_ds_factory
        (register_types_and_ds_factory st cst1 ds1 fn1).st cst2 ds2 fn2).err.map
      PyError.isTypeRegistrationError = some true) ∧
    assocFind (register_types_and_ds_factory
        (register_types_and_ds_factory st cst1 ds1 fn1).st cst2 ds2 fn2).st.source_factories
        ("add_" ++ s)
      = some fn1 := by
  have hok := register_ok_shape st cst1 ds1 fn1 h1
  rw [htag1] at hok
  have hs : s ≠ "" := hok.1
  have hentry : assocFind
      (register_types_and_ds_factory st cst1 ds1 fn1).st.source_factories
      ("add_" ++ s) = some fn1 := by
    rw [hok.2.2.2.1]
    exact assocFind_append_right _ _ _ hok.2.2.1
  generalize hst1 : (register_types_and_ds_factory st cst1 ds1 fn1).st = st1 at hentry ⊢
  unfold register_types_and_ds_factory
  unfold declaredTypeDefault at htag2
  cases hf : _get_field_details ds2.fields "type" with
  | error e => rw [hf] at htag2; cases htag2
  | ok details =>
    rw [hf] at htag2
    dsimp only [Except.map] at htag2
    injection htag2 with htag2
    dsimp only
    have hpf : pyFalsy details.default_value = false := by
      rw [htag2]
      simp [pyFalsy, hs]
    rw [htag2]
    have hpf2 : ¬ (pyFalsy (some s) = true) := by
      rw [← htag2, hpf]
      simp
    rw [if_neg hpf2]
    cases ha : _register_assets ds2 cst2.asset_lookup cst2.dict with
    | mk res dict2 =>
      cases res with
      | error e =>
        have htre := register_assets_error_tre ds2 cst2.asset_lookup cst2.dict e dict2 ha
        exact ⟨by simp [htre], hentry⟩
      | ok al2 =>
        dsimp only
        rw [Option.getD_some]
        rw [rdfm_collision st1 ds2 fn2 s fn1 hentry]
        exact ⟨by simp [PyError.isTypeRegistrationError], hentry⟩

/-- Witness for C2: after registering `dsCsv` (tag `"csv"`) the attempt to
register `dsCsv2` (also `"csv"`) raises `TypeRegistrationError`, and
`add_csv` still maps to factory function object `1`. -/
theorem C2_second_registration_same_name_fails_witness :
    (register_types_and_ds_factory emptyRegState freshClass dsCsv 1).err = none ∧
    ((register_types_and_ds_factory
        (register_types_and_ds_factory emptyRegState freshClass dsCsv 1).st
        freshClass dsCsv2 2).err.map PyError.isTypeRegistrationError = some true) ∧
    assocFind (register_types_and_ds_factory
        (register_types_and_ds_factory emptyRegState freshClass dsCsv 1).st
        freshClass dsCsv2 2).st.source_factories ("add_" ++ "csv")
      = some 1 := by
  have h1 : (register_types_and_ds_factory emptyRegState freshClass dsCsv 1).err = none := by
    decide
  have hmain := C2_second_registration_same_name_fails emptyRegState freshClass freshClass
    dsCsv dsCsv2 1 2 "csv" h1 (by decide) (by decide)
  exact ⟨h1, hmain.1, hmain.2⟩

/-- C3 (amended).  Every validation failure inside
`register_types_and_ds_factory` leaves the process-wide state — the global
provider tag-to-type map, the factory table and the function-object names —
and the per-provider product tag-to-type map exactly as before the call.
(The further conjunct of the original claim — that the set of attributes bound on
the provider type is also unchanged — is false: `setattr` bindings made for
products processed before the failure are not rolled back; see the
counterexample.) -/
theorem C3_validation_failure_preserves_registry_state (st : RegState)
    (cst : ClassState) (ds : DsType) (factory_fn : Nat)
    (h : (register_types_and_ds_factory st cst ds factory_fn).err.isSome = true) :
    (register_types_and_ds_factory st cst ds factory_fn).st.type_lookup =
      st.type_lookup ∧
    (register_types_and_ds_factory st cst ds factory_fn).st.source_factories =
      st.source_factories ∧
    (register_types_and_ds_factory st cst ds factory_fn).st.fn_names =
      st.fn_names ∧
    (register_types_and_ds_factory st cst ds factory_fn).cst.asset_lookup =
      cst.asset_lookup := by
  have hrb := register_err_rollback st cst ds factory_fn h
  exact ⟨by rw [hrb.1], by rw [hrb.1], by rw [hrb.1], hrb.2⟩

/-- Witness for C3: the empty-tag failure leaves every component unchanged. -/
theorem C3_validation_failure_preserves_registry_state_witness :
    (register_types_and_ds_factory emptyRegState freshClass dsEmptyTag 4).err.isSome
      = true ∧
    (register_types_and_ds_factory emptyRegState freshClass dsEmptyTag 4).st.type_lookup
      = emptyRegState.type_lookup ∧
    (register_types_and_ds_factory emptyRegState freshClass dsEmptyTag 4).st.source_factories
      = emptyRegState.source_factories ∧
    (register_types_and_ds_factory emptyRegState freshClass dsEmptyTag 4).st.fn_names
      = emptyRegState.fn_names ∧
    (register_types_and_ds_factory emptyRegState freshClass dsEmptyTag 4).cst.asset_lookup
      = freshClass.asset_lookup := by
  have h : (register_types_and_ds_factory emptyRegState freshClass dsEmptyTag 4).err.isSome
      = true := by decide
  have hmain := C3_validation_failure_preserves_registry_state emptyRegState freshClass
    dsEmptyTag 4 h
  exact ⟨h, hmain.1, hmain.2.1, hmain.2.2.1, hmain.2.2.2⟩

/-- Counterexample to C3 as stated: registering `dsBadAsset` fails on its
the `None` tag of its second product, yet the provider class has gained the two
generated methods for the first product — the set of attributes bound on the
provider type is NOT as it was before the call. -/
theorem C3_counterexample :
    badAssetResult.err.isSome = true ∧
    freshClass.dict = [] ∧
    badAssetResult.cst.dict =
      [("add_file_asset", .genAdd "file"), ("read_file", .genRead "file")] := by
  decide

/-- C4 (amended).  When a provider type already explicitly defines
`add_<productTag>_asset` in its own `__dict__`, the synthesizer leaves the
class `__dict__` completely untouched for that product: the user-defined
function object stays bound and nothing (not even `read_<productTag>`) is
generated.  (The original claim also protected a user-defined
`read_<productTag>`; that is false — the guard checks only the add name, and
when it is absent the generated read operation replaces any user-defined
one; see the counterexample.) -/
theorem C4_user_defined_add_asset_never_replaced
    (dict : List (String × Method)) (asset_type_name : String) (m : Method)
    (h : assocFind dict ("add_" ++ asset_type_name ++ "_asset") = some m) :
    _bind_asset_factory_method_if_not_present dict asset_type_name = dict := by
  unfold _bind_asset_factory_method_if_not_present
  dsimp only
  rw [h]

/-- Witness for C4: a class defining `add_file_asset` as user function `6`
is untouched by the synthesizer. -/
theorem C4_user_defined_add_asset_never_replaced_witness :
    assocFind classWithUserAdd.dict ("add_" ++ "file" ++ "_asset") = some (.user 6) ∧
    _bind_asset_factory_method_if_not_present classWithUserAdd.dict "file" =
      classWithUserAdd.dict :=
  ⟨by decide,
   C4_user_defined_add_asset_never_replaced classWithUserAdd.dict "file" (.user 6)
     (by decide)⟩

/-- Counterexample to C4 as stated: a provider class defining `read_file`
(but not `add_file_asset`) registers successfully, and afterwards the
user-defined `read_file` function object has been replaced by the generated
read operation. -/
theorem C4_counterexample :
    (register_types_and_ds_factory emptyRegState classWithUserRead dsCsv 1).err = none ∧
    assocFind classWithUserRead.dict "read_file" = some (.user 5) ∧
    assocFind (register_types_and_ds_factory emptyRegState classWithUserRead dsCsv 1).cst.dict
        "read_file"
      = some (.genRead "file") := by
  decide

/-- C5 (amended).  When the `type` field of the provider is present but its
default is falsy (`None` or the empty string), registration fails with
`TypeRegistrationError` naming the missing `type` attribute, and the whole
state — both maps included — is returned unchanged.  (The original claim
also covered a provider whose `type` field is missing from `__fields__`
entirely; that case raises `KeyError`, not `TypeRegistrationError` — see the
counterexample — though the maps still stay unchanged.) -/
theorem C5_falsy_tag_rejected (st : RegState) (cst : ClassState) (ds : DsType)
    (factory_fn : Nat) (dv : Option String)
    (h1 : declaredTypeDefault ds = .ok dv) (h2 : pyFalsy dv = true) :
    register_types_and_ds_factory st cst ds factory_fn =
      ⟨some (.typeRegistrationError (missingTypeMsg ds.name) none), st, cst⟩ := by
  unfold register_types_and_ds_factory
  unfold declaredTypeDefault at h1
  cases hf : _get_field_details ds.fields "type" with
  | error e => rw [hf] at h1; cases h1
  | ok details =>
    rw [hf] at h1
    dsimp only [Except.map] at h1
    injection h1 with h1
    dsimp only
    rw [h1, if_pos h2]

/-- Witness for C5: a provider whose declared tag defaults to `""` is
rejected with `TypeRegistrationError` and nothing changes. -/
theorem C5_falsy_tag_rejected_witness :
    declaredTypeDefault dsEmptyTag = .ok (some "") ∧
    pyFalsy (some "") = true ∧
    register_types_and_ds_factory emptyRegState freshClass dsEmptyTag 4 =
      ⟨some (.typeRegistrationError (missingTypeMsg dsEmptyTag.name) none),
       emptyRegState, freshClass⟩ :=
  ⟨by decide, by decide,
   C5_falsy_tag_rejected emptyRegState freshClass dsEmptyTag 4 (some "")
     (by decide) (by decide)⟩

/-- Counterexample to C5 as stated: a provider whose `__fields__` holds no
`type` entry at all makes registration raise `KeyError` — which is not a
`TypeRegistrationError` — with the state unchanged. -/
theorem C5_counterexample :
    (register_types_and_ds_factory emptyRegState freshClass dsNoType 5).err =
      some (.exc (.keyError "type")) ∧
    (PyError.exc (.keyError "type")).isTypeRegistrationError = false ∧
    (register_types_and_ds_factory emptyRegState freshClass dsNoType 5).st =
      emptyRegState ∧
    (register_types_and_ds_factory emptyRegState freshClass dsNoType 5).cst =
      freshClass := by
  decide

/-- C6 (amended).  The wrapper swallows (logs and ignores) exactly a
`ValueError` raised by the `datasource._data_context` assignment: in that
case — and when the assignment succeeds — it still attaches the instance to
the host context and returns it.  (The original claim said NO exception from
the assignment can propagate past the wrapper; that is false — the `except`
clause catches only `ValueError`, and any other exception propagates; see
the counterexample.) -/
theorem C6_wrapper_swallows_valueerror (datasource : DsInstance)
    (h : datasource.set_data_context_raises = none ∨
         ∃ m, datasource.set_data_context_raises = some (.valueError m)) :
    ∃ o, wrapped_call datasource = .ok o ∧ o.attached = true ∧ o.returned = true := by
  rcases h with h | ⟨m, h⟩
  · exact ⟨⟨true, none, true, true⟩, by unfold wrapped_call; rw [h], rfl, rfl⟩
  · exact ⟨⟨false, some (.valueError m), true, true⟩,
      by unfold wrapped_call; rw [h], rfl, rfl⟩

/-- Witness for C6: an instance whose context-slot assignment raises
`ValueError` is still attached and returned. -/
theorem C6_wrapper_swallows_valueerror_witness :
    ∃ o, wrapped_call ⟨some (.valueError "no settable slot")⟩ = .ok o ∧
      o.attached = true ∧ o.returned = true :=
  C6_wrapper_swallows_valueerror ⟨some (.valueError "no settable slot")⟩
    (Or.inr ⟨"no settable slot", rfl⟩)

/-- Counterexample to C6 as stated: an exception other than `ValueError`
raised by the context-slot assignment propagates out of the wrapper — it is
neither swallowed nor followed by the attach-and-return steps. -/
theorem C6_counterexample :
    wrapped_call ⟨some (.attributeError "cannot set attribute")⟩ =
      .error (.attributeError "cannot set attribute") := by
  decide

/-- C7.  Resolving any operation name absent from the process-wide factory
table fails with `AttributeError`, whose message (`noFactoryMsg`) and
carried enumeration list every currently registered factory name. -/
theorem C7_unknown_name_attribute_error (st : RegState) (attr_name : String)
    (h : attr_name ∉ factories st) :
    facade_getattr st attr_name =
      .attrError (noFactoryMsg attr_name (factories st)) (factories st) := by
  unfold factories at h
  unfold facade_getattr
  rw [assocFind_eq_none_of_not_mem st.source_factories attr_name h]

/-- Witness for C7: with only `add_csv` registered, resolving `add_sql`
raises `AttributeError` enumerating `["add_csv"]`. -/
theorem C7_unknown_name_attribute_error_witness :
    "add_sql" ∉ factories stAfterCsv.st ∧
    facade_getattr stAfterCsv.st "add_sql" =
      .attrError (noFactoryMsg "add_sql" (factories stAfterCsv.st))
        (factories stAfterCsv.st) :=
  ⟨by decide, C7_unknown_name_attribute_error stAfterCsv.st "add_sql" (by decide)⟩

/-- C8.  After any sequence of successful registrations from the initial
empty state, `factories` lists exactly the derived names `add_<tag>` of the
registered providers in registration order, and `__dir__` is a superset of
that list (whatever the built-in members are). -/
theorem C8_factories_reflect_registration_order (regs : List RegRequest)
    (st2 : RegState) (builtins : List String)
    (h : registerSeq emptyRegState regs = some st2) :
    factories st2 = regs.map (fun r => "add_" ++ declaredTypeName r.ds) ∧
    ∀ x ∈ factories st2, x ∈ facade_dir st2 builtins := by
  have hf := registerSeq_factories regs emptyRegState st2 h
  constructor
  · rw [hf]
    rfl
  · intro x hx
    unfold facade_dir
    exact List.mem_append_left _ hx

/-- Witness for C8: registering tags `"alpha"` then `"beta"` yields
`factories = ["add_alpha", "add_beta"]`, contained in `__dir__`. -/
theorem C8_factories_reflect_registration_order_witness :
    registerSeq emptyRegState regsAlphaBeta = some stAlphaBeta ∧
    factories stAlphaBeta =
      regsAlphaBeta.map (fun r => "add_" ++ declaredTypeName r.ds) ∧
    factories stAlphaBeta = ["add_alpha", "add_beta"] ∧
    "add_alpha" ∈ facade_dir stAlphaBeta facadeBuiltins ∧
    "add_beta" ∈ facade_dir stAlphaBeta facadeBuiltins := by
  have h : registerSeq emptyRegState regsAlphaBeta = some stAlphaBeta := by decide
  have hmain := C8_factories_reflect_registration_order regsAlphaBeta stAlphaBeta
    facadeBuiltins h
  exact ⟨h, hmain.1, by decide,
    hmain.2 "add_alpha" (by decide), hmain.2 "add_beta" (by decide)⟩

/-- C9.  Every successful registration renames the caller-supplied factory
function object itself: afterwards the function-object name heap maps that
very object to the derived name `add_<tag>`, and the factory table stores
that same object under the derived name. -/
theorem C9_factory_fn_renamed (st : RegState) (cst : ClassState) (ds : DsType)
    (factory_fn : Nat)
    (h : (register_types_and_ds_factory st cst ds factory_fn).err = none) :
    assocFind (register_types_and_ds_factory st cst ds factory_fn).st.fn_names
        factory_fn
      = some ("add_" ++ declaredTypeName ds) ∧
    assocFind (register_types_and_ds_factory st cst ds factory_fn).st.source_factories
        ("add_" ++ declaredTypeName ds)
      = some factory_fn := by
  have hok := register_ok_shape st cst ds factory_fn h
  constructor
  · rw [hok.2.2.2.2]
    exact assocFind_assocSet_self st.fn_names factory_fn ("add_" ++ declaredTypeName ds)
  · rw [hok.2.2.2.1]
    exact assocFind_append_right st.source_factories ("add_" ++ declaredTypeName ds)
      factory_fn hok.2.2.1

/-- Witness for C9: registering `dsCsv` with function object `1` renames
that object to `add_csv` and stores it under `add_csv`. -/
theorem C9_factory_fn_renamed_witness :
    (register_types_and_ds_factory emptyRegState freshClass dsCsv 1).err = none ∧
    assocFind (register_types_and_ds_factory emptyRegState freshClass dsCsv 1).st.fn_names 1
      = some ("add_" ++ declaredTypeName dsCsv) ∧
    assocFind (register_types_and_ds_factory
        emptyRegState freshClass dsCsv 1).st.source_factories
        ("add_" ++ declaredTypeName dsCsv)
      = some 1 := by
  have h : (register_types_and_ds_factory emptyRegState freshClass dsCsv 1).err = none := by
    decide
  have hmain := C9_factory_fn_renamed emptyRegState freshClass dsCsv 1 h
  exact ⟨h, hmain.1, hmain.2⟩

/-- C10.  In the generated `_read_asset_factory`, every falsy `asset_name`
— `None` (the omitted-argument default) as well as the empty string — is
replaced by the sentinel `DEFAULT_PANDAS_DATA_ASSET_NAME`
(`"#ephemeral_pandas_asset"`) before the asset is constructed. -/
theorem C10_falsy_asset_name_replaced (asset_name : Option String)
    (h : pyFalsy asset_name = true) :
    _read_asset_factory_effective_name asset_name = DEFAULT_PANDAS_DATA_ASSET_NAME := by
  cases asset_name with
  | none => rfl
  | some s =>
    have hs : s = "" := by
      have := of_decide_eq_true h
      exact this
    unfold _read_asset_factory_effective_name pyOrStr
    dsimp only
    rw [if_pos hs]

/-- Witness for C10: the empty string is replaced by the sentinel. -/
theorem C10_falsy_asset_name_replaced_witness :
    pyFalsy (some "") = true ∧
    _read_asset_factory_effective_name (some "") = DEFAULT_PANDAS_DATA_ASSET_NAME :=
  ⟨by decide, C10_falsy_asset_name_replaced (some "") (by decide)⟩

end Sources
